import Mathlib

/-!
Verification of `scholar_department_extract.py` and `make_yearly_notebooklm_docs.py`
(GoogleScholarScraper), as a shallow embedding in Lean 4.

HTML pages are modelled structurally: a page value records the raw text (used by
the substring-based block classifiers) together with the element data the source
reads out of the parsed DOM (row anchors, field label/value pairs, regex match
results for the embedded citation-series patterns).  Python dicts are modelled
as association lists with overwrite-on-insert, Python `Optional` as `Option`,
Python float division as exact rational division, and the on-disk HTML cache as
an association list from cache paths to page values threaded through the
functions that read and write it.
-/

namespace Scholar

/-! ## Generic string and dictionary helpers -/

/-- Is `pat` a prefix of `s` (as character lists)? -/
def listStartsWith : List Char → List Char → Bool
  | [], _ => true
  | _ :: _, [] => false
  | p :: ps, c :: cs => p == c && listStartsWith ps cs

/-- Does `s` contain `pat` as a contiguous substring (Python `pat in s`)? -/
def listContainsSub (pat : List Char) : List Char → Bool
  | [] => listStartsWith pat []
  | c :: cs => listStartsWith pat (c :: cs) || listContainsSub pat cs

/-- Python `pat in s` on strings. -/
def containsSub (s pat : String) : Bool :=
  listContainsSub pat.toList s.toList

/-- ASCII lowercasing of one character (the anti-automation markers are all
ASCII, so this models Python `str.lower` faithfully where it matters). -/
def lowerChar (c : Char) : Char :=
  if 'A' ≤ c ∧ c ≤ 'Z' then Char.ofNat (c.toNat + 32) else c

/-- Python `s.lower()`. -/
def lowerStr (s : String) : String :=
  String.mk (s.toList.map lowerChar)

/-- Numeric value of a digit character. -/
def digitVal (c : Char) : Nat := c.toNat - '0'.toNat

/-- Value of a list of digit characters, most significant first. -/
def digitsToNat (l : List Char) : Nat :=
  l.foldl (fun n c => 10 * n + digitVal c) 0

/-- Python `int(s)` on an already-stripped token: an optional sign followed by a
nonempty run of digits; `none` when `int` would raise. -/
def pyInt (s : String) : Option Int :=
  let core : List Char → Option Int := fun l =>
    if l ≠ [] ∧ l.all Char.isDigit then some (digitsToNat l : Int) else none
  match s.toList with
  | '-' :: rest => (core rest).map (fun n => -n)
  | '+' :: rest => core rest
  | l => core l

/-- Python `s.isdigit() and int(s)`: the value of a token consisting only of
digits, `none` if the token is empty or has a non-digit character. -/
def digitsOnly (s : String) : Option Nat :=
  if s.toList ≠ [] ∧ s.toList.all Char.isDigit then some (digitsToNat s.toList) else none

/-- First match of the regex `(\d{4})`: the value of the first four consecutive
digit characters in `s`, if any. -/
def firstFourDigits (s : String) : Option Nat :=
  go s.toList
where
  go : List Char → Option Nat
    | a :: b :: c :: d :: rest =>
      if a.isDigit && b.isDigit && c.isDigit && d.isDigit then
        some (digitsToNat [a, b, c, d])
      else go (b :: c :: d :: rest)
    | _ => none

/-- Leading digit run of a character list: its value and the remainder, `none`
if the list does not start with a digit. -/
def digitRun : List Char → Option (Nat × List Char)
  | c :: cs =>
    if c.isDigit then
      match digitRun cs with
      | some (n, rest) => some (digitVal c * 10 ^ (cs.length - rest.length) + n, rest)
      | none => some (digitVal c, cs)
    else none
  | _ => none

/-- Skip the regex `\s+`: at least one whitespace character. -/
def skipWs1 : List Char → Option (List Char)
  | c :: cs => if c.isWhitespace then some (cs.dropWhile Char.isWhitespace) else none
  | [] => none

/-- First match of the regex `Cited by\s+(\d+)` in `s`: scan for the literal
`Cited by`, then at least one whitespace character, then a digit run. -/
def citedByNum (s : String) : Option Nat :=
  go s.toList
where
  lit : List Char := "Cited by".toList
  go : List Char → Option Nat
    | [] => none
    | c :: cs =>
      (if listStartsWith lit (c :: cs) then
        (skipWs1 ((c :: cs).drop lit.length)).bind (fun rest => (digitRun rest).map (·.1))
      else none).orElse (fun _ => go cs)

/-- Python dict assignment `m[k] = v` on an association list: overwrite the
binding if the key is present, append it otherwise. -/
def dictInsert {κ ν : Type} [BEq κ] (m : List (κ × ν)) (k : κ) (v : ν) : List (κ × ν) :=
  match m with
  | [] => [(k, v)]
  | (k', v') :: rest => if k' == k then (k, v) :: rest else (k', v') :: dictInsert rest k v

/-- Build a year→count dict from regex match pairs, counts cast from the
matched digit strings (hence naturals). -/
def insertPairs (init : List (Nat × Int)) (l : List (Nat × Nat)) : List (Nat × Int) :=
  l.foldl (fun m yc => dictInsert m yc.1 (yc.2 : Int)) init

/-! ## Block classifiers -/

/-- Model of `looks_like_captcha` from `scholar_department_extract.py`: best-effort
CAPTCHA detection over the lowercased body. -/
def looks_like_captcha (html : String) : Bool :=
  let h := lowerStr html
  containsSub h "recaptcha" || containsSub h "unusual traffic" ||
    (containsSub h "sorry" && containsSub h "automated queries")

/-- The inline block check of `extract_cites_by_year_playwright` over the
lowercased rendered body. -/
def playwrightBlocked (body : String) : Bool :=
  let b := lowerStr body
  containsSub b "unusual traffic" || containsSub b "automated queries" || containsSub b "recaptcha"

/-! ## Cache store (`cache_get`) -/

/-- On-disk cache: association list from cache path to stored body. -/
abbrev Cache (α : Type) : Type := List (String × α)

/-- Model of `cache_get` from the source: if a body is cached at `cache_path` and `force`
is false, return it without touching the network; otherwise run the fetch
(`fetch` models the outcome of `requests.get` + `raise_for_status`), persist the
body on success, and propagate the failure without caching otherwise.  The
`Nat` component counts network fetches performed (0 or 1). -/
def cache_get {ε α : Type} (fetch : Except ε α) (cache_path : String) (force : Bool)
    (s : Cache α) : Except ε α × Cache α × Nat :=
  match force, List.lookup cache_path s with
  | false, some body => (.ok body, s, 0)
  | _, _ =>
    match fetch with
    | .error e => (.error e, s, 1)
    | .ok body => (.ok body, dictInsert s cache_path body, 1)

/-- The body a successful `cache_get` without `force` returns: the cached body
if present, else the freshly fetched one. -/
def cachedBody {α : Type} (s : Cache α) (cache_path : String) (fetched : α) : α :=
  (List.lookup cache_path s).getD fetched

/-! ## Metric deriver (`citations_per_year_proxy`) -/

def YEAR_MIN : Nat := 2015
def YEAR_MAX : Nat := 2026

/-- Model of `citations_per_year_proxy` from the source; float division modelled as
exact rational division. -/
def citations_per_year_proxy (total_cites pub_year : Option Int)
    (now_year : Int := (YEAR_MAX : Int)) : Option ℚ :=
  match total_cites, pub_year with
  | some t, some y =>
    let denom : Int := now_year - y + 1
    let denom : Int := if denom ≤ 0 then 1 else denom
    some ((t : ℚ) / (denom : ℚ))
  | _, _ => none

/-! ## Listing pages and the paginator -/

def BASE : String := "https://scholar.google.com"

/-- One `tr.gsc_a_tr` row of an author listing page: the optional title anchor
`a.gsc_a_at` (its text and optional `href` attribute), the optional year span
`span.gsc_a_h` text, and the optional cited-by anchor `a.gsc_a_ac` text. -/
structure PubRow where
  titleAnchor : Option (String × Option String)
  yearText : Option String
  citedText : Option String
deriving Repr, DecidableEq

/-- A publication stub as built by `parse_author_page_for_pubs`. -/
structure Pub where
  title : String
  year : Option Int
  cited_by_from_list : Option Nat
  view_citation_url : Option String
deriving Repr, DecidableEq

/-- An author listing page: raw text plus the structural pieces the source
reads (publication rows and the `button#gsc_bpf_next` element, `some disabled`
when the button exists). -/
structure AuthorPage where
  raw : String
  rows : List PubRow
  nextBtn : Option Bool
deriving Repr, DecidableEq

/-- Model of `parse_author_page_for_pubs`: one stub per row that has a title anchor;
rows without the anchor are skipped.  The detail URL is absolutized when the
href starts with `/`, and is absent when the row has no href attribute. -/
def parse_author_page_for_pubs (rows : List PubRow) : List Pub :=
  rows.filterMap fun tr =>
    tr.titleAnchor.map fun a =>
      { title := a.1
        year := tr.yearText.bind pyInt
        cited_by_from_list := tr.citedText.bind digitsOnly
        view_citation_url :=
          match a.2 with
          | some href => some (if listStartsWith "/".toList href.toList then BASE ++ href else href)
          | none => none }

/-- Model of `next_cstart_from_author_page`: `some 1` (sentinel meaning "has next") iff
the next button exists and is not disabled. -/
def next_cstart_from_author_page (nextBtn : Option Bool) : Option Nat :=
  match nextBtn with
  | none => none
  | some disabled => if disabled then none else some 1

inductive ScrapeErr : Type where
  | blocked
  | transport (msg : String)
deriving Repr, DecidableEq

/-- Cache path of the listing page at offset `cstart`
(`author_pages/<user>/cstart_<cstart>.html`, with the fixed parts elided). -/
def listingPath (cstart : Nat) : String := "cstart_" ++ toString cstart

/-- The `while True` loop of `get_all_author_pubs`.  `net` models the network
at each `cstart` offset (`.error` = transport failure from `requests`); the
`Nat` result counts loop iterations, i.e. listing pages requested. -/
def pubsLoop (net : Nat → Except String AuthorPage) (pagesize : Nat) (max_pubs : Option Nat)
    (cstart page : Nat) (pubs_all : List Pub) (cache : Cache AuthorPage) (pages : Nat) :
    Except ScrapeErr (List Pub) × Cache AuthorPage × Nat :=
  match cache_get (net cstart) (listingPath cstart) false cache with
  | (.error e, cache', _) => (.error (.transport e), cache', pages + 1)
  | (.ok html, cache', _) =>
    if looks_like_captcha html.raw then (.error .blocked, cache', pages + 1)
    else
      let pubs := parse_author_page_for_pubs html.rows
      if pubs = [] then (.ok pubs_all, cache', pages + 1)
      else
        let acc := pubs_all ++ pubs
        if (match max_pubs with | some m => decide (m ≤ acc.length) | none => false : Bool) then
          (.ok (acc.take (max_pubs.getD 0)), cache', pages + 1)
        else if (next_cstart_from_author_page html.nextBtn).isNone then
          (.ok acc, cache', pages + 1)
        else if h : page + 1 > 500 then (.ok acc, cache', pages + 1)
        else pubsLoop net pagesize max_pubs (cstart + pagesize) (page + 1) acc cache' (pages + 1)
termination_by 501 - page
decreasing_by omega

/-- Model of `get_all_author_pubs`: run the pagination loop from offset 0, page 0. -/
def get_all_author_pubs (net : Nat → Except String AuthorPage) (pagesize : Nat)
    (max_pubs : Option Nat) (cache : Cache AuthorPage) :
    Except ScrapeErr (List Pub) × Cache AuthorPage × Nat :=
  pubsLoop net pagesize max_pubs 0 0 [] cache 0

/-! ## Detail pages (`parse_view_citation`) -/

/-- A `view_citation` page: raw text, the optional `#gsc_oci_title` and
`.gsc_oci_title_link` texts, the zipped `.gsc_oci_field`/`.gsc_oci_value` text
pairs, and the match results of the two embedded citation-series regexes
(pattern A: a blob of `[year, count]` pairs; pattern B: parallel `years=[...]`
and `cites=[...]` arrays), each pair of naturals coming from digit groups. -/
structure ViewPage where
  raw : String
  titleElem : Option String
  titleLinkElem : Option String
  fieldPairs : List (String × String)
  patternA : Option (List (Nat × Nat))
  patternB : Option (List Nat × List Nat)
deriving Repr, DecidableEq

/-- The structured result of `parse_view_citation`. -/
structure Detail where
  title : Option String
  pub_year : Option Int
  cited_by_total : Option Int
  abstract : Option String
  cites_by_year : List (Nat × Int)
deriving Repr, DecidableEq

/-- Model of `parse_view_citation` from the source. -/
def parse_view_citation (pg : ViewPage) : Detail :=
  let title : Option String :=
    match pg.titleElem with
    | some t => some t
    | none => pg.titleLinkElem
  let fields : List (String × String) :=
    pg.fieldPairs.foldl (fun m fv => dictInsert m fv.1 fv.2) []
  let abstract := List.lookup "Description" fields
  let pub_year : Option Int :=
    (List.lookup "Publication date" fields).bind fun d => (firstFourDigits d).map (↑·)
  let cited_by_total : Option Int :=
    match (List.lookup "Total citations" fields).bind citedByNum with
    | some c => some (c : Int)
    | none => (citedByNum pg.raw).map (↑·)
  let cites_by_year : List (Nat × Int) :=
    match pg.patternA with
    | some pairs => insertPairs [] pairs
    | none =>
      match pg.patternB with
      | some yc => insertPairs [] (yc.1.zip yc.2)
      | none => []
  { title, pub_year, cited_by_total, abstract, cites_by_year }

/-- Model of `cites_2015_2026`: project a year→count dict onto the fixed horizon
columns `cites_2015` … `cites_2026`. -/
def cites_2015_2026 (cites_by_year : List (Nat × Int)) : List (String × Option Int) :=
  (List.range' YEAR_MIN (YEAR_MAX + 1 - YEAR_MIN)).map fun y =>
    ("cites_" ++ toString y, List.lookup y cites_by_year)

/-! ## Rendered-DOM citation-series extractor -/

/-- A rendered `view_citation` page as the playwright path sees it: the page
content (for the block check), the per-aria-node match results of the regex
`(\d{4}).*?(\d+)\s+cit` over each `[aria-label*='citations']` node, and the
match results of the same pattern over the page's visible body text. -/
structure RenderedPage where
  content : String
  ariaMatches : List (Option (Nat × Nat))
  bodyMatches : List (Nat × Nat)
deriving Repr, DecidableEq

/-- Model of `extract_cites_by_year_playwright`: raise on a blocked rendered body, else
collect year→count from aria labels, falling back to the visible-text scan
when the aria pass found nothing. -/
def extract_cites_by_year_playwright (pg : RenderedPage) :
    Except ScrapeErr (List (Nat × Int)) :=
  if playwrightBlocked pg.content then .error .blocked
  else
    let cites : List (Nat × Int) :=
      pg.ariaMatches.foldl
        (fun m o => match o with | some yc => dictInsert m yc.1 (yc.2 : Int) | none => m) []
    let cites := if cites = [] then insertPairs [] pg.bodyMatches else cites
    .ok cites

/-! ## Per-publication processing (`process_one_professor` loop body) -/

/-- Python `x or y` on optional ints (falls through on `None` and on `0`). -/
def pyOrInt (a b : Option Int) : Option Int :=
  match a with
  | some v => if v = 0 then b else some v
  | none => b

/-- Python `x or y` where `x` is an optional string and `y` a string (falls
through on `None` and on the empty string). -/
def pyOrStr (a : Option String) (b : String) : String :=
  match a with
  | some s => if s = "" then b else s
  | none => b

/-- One output row of the department dataset. -/
structure Row where
  department : String
  faculty_name : String
  title : String
  publication_year : Option Int
  cited_by_total : Option Int
  citations_per_year_proxy : Option ℚ
  abstract : Option String
  scholar_user_id : String
  view_citation_url : Option String
  cites : List (String × Option Int)

/-- Cache path of the detail page of publication `i`
(`view_pages/<user>/pub_<i>.html`, with the fixed parts elided). -/
def viewPath (i : Nat) : String := "pub_" ++ toString i

/-- The body of the `for i, p in enumerate(pubs)` loop of
`process_one_professor`: fetch the detail page through the cache, run the
playwright series extraction on the same URL, check the static body for a
CAPTCHA, parse it, merge stub and detail with the source's precedence, and
assemble the row.  `viewNet` models `requests.get` per URL and `renderNet` the
rendered page per URL; the `Nat` result counts invocations of the playwright
extractor. -/
def process_one_professor_step (viewNet : Option String → Except String ViewPage)
    (renderNet : Option String → RenderedPage)
    (department faculty_name user_id : String) (i : Nat) (p : Pub)
    (cache : Cache ViewPage) :
    Except ScrapeErr (Row × Cache ViewPage) × Nat :=
  let view_url := p.view_citation_url
  match cache_get (viewNet view_url) (viewPath i) false cache with
  | (.error e, _, _) => (.error (.transport e), 0)
  | (.ok html, cache', _) =>
    match extract_cites_by_year_playwright (renderNet view_url) with
    | .error e => (.error e, 1)
    | .ok cites_by_year =>
      if looks_like_captcha html.raw then (.error .blocked, 1)
      else
        let parsed := parse_view_citation html
        let pub_year := pyOrInt parsed.pub_year p.year
        let cited_total : Option Int :=
          match parsed.cited_by_total with
          | some c => some c
          | none => p.cited_by_from_list.map (↑·)
        let cpy := citations_per_year_proxy cited_total pub_year (YEAR_MAX : Int)
        let cites_src := if cites_by_year ≠ [] then cites_by_year else parsed.cites_by_year
        (.ok ({ department, faculty_name
                title := pyOrStr parsed.title p.title
                publication_year := pub_year
                cited_by_total := cited_total
                citations_per_year_proxy := cpy
                abstract := parsed.abstract
                scholar_user_id := user_id
                view_citation_url := view_url
                cites := cites_2015_2026 cites_src }, cache'), 1)


/-! ## Derived forms and concrete inputs used by the verification -/

/-- The row assembled by `process_one_professor_step` from a fetched body
`html` and a playwright series `s`. -/
def assembledRow (d f u : String) (p : Pub) (html : ViewPage) (s : List (Nat × Int)) : Row :=
  { department := d, faculty_name := f
    title := pyOrStr (parse_view_citation html).title p.title
    publication_year := pyOrInt (parse_view_citation html).pub_year p.year
    cited_by_total :=
      match (parse_view_citation html).cited_by_total with
      | some c => some c
      | none => p.cited_by_from_list.map (fun n => (n : Int))
    citations_per_year_proxy :=
      citations_per_year_proxy
        (match (parse_view_citation html).cited_by_total with
         | some c => some c
         | none => p.cited_by_from_list.map (fun n => (n : Int)))
        (pyOrInt (parse_view_citation html).pub_year p.year) (YEAR_MAX : Int)
    abstract := (parse_view_citation html).abstract
    scholar_user_id := u
    view_citation_url := p.view_citation_url
    cites := cites_2015_2026 (if s ≠ [] then s else (parse_view_citation html).cites_by_year) }

/-- A listing page on which the pagination loop keeps going: no CAPTCHA,
at least one parsed stub row, and an enabled next-page button. -/
def goodPage (pg : AuthorPage) : Prop :=
  looks_like_captcha pg.raw = false ∧ parse_author_page_for_pubs pg.rows ≠ [] ∧
    next_cstart_from_author_page pg.nextBtn ≠ none

/-- An adversarial listing: every offset fetches successfully and yields a
page that keeps the loop going. -/
def advNet (net : Nat → Except String AuthorPage) : Prop :=
  ∀ c, ∃ pg, net c = .ok pg ∧ goodPage pg

/-- A concrete adversarial listing page for the C8 witness. -/
def advPage : AuthorPage := ⟨"profile", [⟨some ("T", some "/v"), none, none⟩], some false⟩

/-- A concrete adversarial listing for the C8 witness. -/
def advListing : Nat → Except String AuthorPage := fun _ => .ok advPage

/-- A listing page carrying an anti-automation marker. -/
def blockedListing : AuthorPage :=
  ⟨"Our systems have detected unusual traffic from your network",
    [⟨some ("T", some "/v"), none, none⟩], some false⟩

/-- A blocked detail page for the C1 witness. -/
def blockedView : ViewPage :=
  ⟨"Please show you are not a robot: reCAPTCHA", none, none, [], none, none⟩

/-- A benign rendered page for the C1 witness. -/
def c1RenderNet : Option String → RenderedPage := fun _ => ⟨"", [], []⟩

/-- A stub for the C1 witness. -/
def c1Stub : Pub := ⟨"T", none, none, some "/v"⟩

/-- Concrete detail page for the C5 witness: no embedded series patterns. -/
def c5ViewNet : Option String → Except String ViewPage :=
  fun _ => .ok ⟨"", none, none, [], none, none⟩

/-- Concrete rendered page for the C5 witness: one aria match `(2019, 3)`. -/
def c5RenderNet : Option String → RenderedPage :=
  fun _ => ⟨"", [some (2019, 3)], []⟩

/-- Concrete stub for the C5 witness. -/
def c5Stub : Pub := ⟨"T", some 2019, some 7, some "/v"⟩

/-- The C5 witness run. -/
def c5StepResult : Except ScrapeErr (Row × Cache ViewPage) × Nat :=
  process_one_professor_step c5ViewNet c5RenderNet "CS" "F" "u" 0 c5Stub []

/-- The row of the C5 witness run. -/
def c5Row : Row :=
  match c5StepResult.1 with
  | .ok rc => rc.1
  | .error _ => ⟨"", "", "", none, none, none, none, "", none, []⟩

/-- The cache of the C5 witness run. -/
def c5Cache : Cache ViewPage :=
  match c5StepResult.1 with
  | .ok rc => rc.2
  | .error _ => []

/-- A concrete successful fetch result, for the C7 witness. -/
def fetchOkBody : Except String String := .ok "body"

/-- A concrete failing fetch result, for the C7 witness. -/
def fetchBoom : Except String String := .error "boom"


/-- Detail page whose static parse yields the non-empty series
`{2020: 5}` (embedded pattern A), for C2. -/
def c2View : ViewPage := ⟨"", some "T", none, [], some [(2020, 5)], none⟩

/-- Network returning `c2View` for every URL, for C2. -/
def c2ViewNet : Option String → Except String ViewPage := fun _ => .ok c2View

/-- Rendered page whose aria scan yields the series `{2019: 3}`, for C2. -/
def c2RenderNet : Option String → RenderedPage := fun _ => ⟨"", [some (2019, 3)], []⟩

/-- Stub for the C2 run. -/
def c2Stub : Pub := ⟨"T", some 2019, some 7, some "/v"⟩

/-- The C2 run. -/
def c2Step : Except ScrapeErr (Row × Cache ViewPage) × Nat :=
  process_one_professor_step c2ViewNet c2RenderNet "CS" "F" "u" 0 c2Stub []

/-- Stub for the C9 witness: year 2019, at-a-glance count 4. -/
def c9Stub : Pub := ⟨"ST", some 2019, some 4, some "/v"⟩

/-- Detail page with title "DT" and no year, cited-by or series data, for C9. -/
def c9ViewA : ViewPage := ⟨"", some "DT", none, [], none, none⟩

/-- Detail page with publication date 2020 and a page-wide "Cited by 10",
for C9. -/
def c9ViewB : ViewPage :=
  ⟨"Cited by 10", some "", none, [("Publication date", "2020/01/02")], none, none⟩

/-- Network returning `c9ViewA`, for C9. -/
def c9NetA : Option String → Except String ViewPage := fun _ => .ok c9ViewA

/-- Network returning `c9ViewB`, for C9. -/
def c9NetB : Option String → Except String ViewPage := fun _ => .ok c9ViewB

/-- Rendered pages with no series data, for C9. -/
def c9Render : Option String → RenderedPage := fun _ => ⟨"", [], []⟩


end Scholar

namespace YearlyDocs

/-! ## Yearly export (`make_yearly_notebooklm_docs.py`) -/

/-- Python `str.strip`: drop leading and trailing whitespace. -/
def pyStrip (s : String) : String :=
  String.mk (((s.toList.dropWhile Char.isWhitespace).reverse.dropWhile
    Char.isWhitespace).reverse)

/-- Model of `clean_text` from the source: `None`/NaN become the empty string, other
values are stringified and stripped.  An absent cell (`None` or NaN) is
modelled as `none`. -/
def clean_text (x : Option String) : String :=
  match x with
  | none => ""
  | some s => pyStrip s

/-- The per-record lines `write_year_file` writes for one row: the title line,
the cited-by line, the proxy line, and the description block. -/
def write_record_lines (title abstract cited_by_total proxy : Option String) : List String :=
  let t := clean_text title
  let a := clean_text abstract
  let c := clean_text cited_by_total
  let p := clean_text proxy
  [ "TITLE: " ++ t,
    "CITED_BY_TOTAL: " ++ (if c = "" then "N/A" else c),
    "CITATIONS_PER_YEAR_PROXY: " ++ (if p = "" then "N/A" else p),
    "ABSTRACT_OR_DESCRIPTION:",
    if a = "" then "N/A" else a ]

end YearlyDocs

namespace Scholar

/-! ## Helper lemmas -/

theorem lookup_dictInsert {κ ν : Type} [BEq κ] [LawfulBEq κ]
    (m : List (κ × ν)) (k q : κ) (v : ν) :
    List.lookup q (dictInsert m k v) = if q == k then some v else List.lookup q m := by
  induction m with
  | nil =>
    by_cases hq : q = k
    · subst hq; simp [dictInsert, List.lookup]
    · have hb : (q == k) = false := by simp [hq]
      simp [dictInsert, List.lookup, hb]
  | cons hd tl ih =>
    obtain ⟨k', v'⟩ := hd
    simp only [dictInsert]
    by_cases hk : k' = k
    · subst hk
      rw [if_pos (by simp)]
      by_cases hq : q = k'
      · subst hq; simp [List.lookup]
      · have hb : (q == k') = false := by simp [hq]
        simp [List.lookup, hb]
    · rw [if_neg (by simpa using hk)]
      by_cases hq : q = k'
      · subst hq
        have hb : (q == k) = false := by simp [hk]
        simp [List.lookup, hb]
      · have hb : (q == k') = false := by simp [hq]
        simp [List.lookup, hb, ih]

theorem lookup_dictInsert_self {κ ν : Type} [BEq κ] [LawfulBEq κ]
    (m : List (κ × ν)) (k : κ) (v : ν) :
    List.lookup k (dictInsert m k v) = some v := by
  simp [lookup_dictInsert]

theorem mem_dictInsert {κ ν : Type} [BEq κ] (m : List (κ × ν)) (k : κ) (v : ν) :
    ∀ x ∈ dictInsert m k v, x ∈ m ∨ x = (k, v) := by
  induction m with
  | nil => simp [dictInsert]
  | cons hd tl ih =>
    obtain ⟨k', v'⟩ := hd
    intro x hx
    simp only [dictInsert] at hx
    by_cases hk : (k' == k) = true
    · rw [if_pos hk] at hx
      rcases List.mem_cons.mp hx with h | h
      · right; exact h
      · left; exact List.mem_cons_of_mem _ h
    · rw [if_neg hk] at hx
      rcases List.mem_cons.mp hx with h | h
      · left; exact h ▸ List.mem_cons_self _ _
      · rcases ih x h with h' | h'
        · left; exact List.mem_cons_of_mem _ h'
        · right; exact h'

theorem insertPairs_nonneg (l : List (Nat × Nat)) :
    ∀ (init : List (Nat × Int)), (∀ p ∈ init, 0 ≤ p.2) →
      ∀ p ∈ insertPairs init l, 0 ≤ p.2 := by
  induction l with
  | nil =>
    intro init h p hp
    rw [insertPairs, List.foldl_nil] at hp
    exact h p hp
  | cons hd tl ih =>
    intro init hinit p hp
    rw [insertPairs, List.foldl_cons] at hp
    refine ih (dictInsert init hd.1 (hd.2 : Int)) ?_ p hp
    intro q hq
    rcases mem_dictInsert _ _ _ q hq with h | h
    · exact hinit q h
    · rw [h]
      exact Int.ofNat_nonneg _

theorem cache_get_hit {ε α : Type} (fetch : Except ε α) (path : String)
    (s : Cache α) (b : α) (h : List.lookup path s = some b) :
    cache_get fetch path false s = (.ok b, s, 0) := by
  simp [cache_get, h]

theorem cache_get_miss_ok {ε α : Type} (path : String) (s : Cache α) (b : α)
    (h : List.lookup path s = none) :
    cache_get (.ok b : Except ε α) path false s = (.ok b, dictInsert s path b, 1) := by
  simp [cache_get, h]

theorem cache_get_miss_error {ε α : Type} (path : String) (s : Cache α) (e : ε)
    (h : List.lookup path s = none) :
    cache_get (.error e : Except ε α) path false s = (.error e, s, 1) := by
  simp [cache_get, h]

theorem lookup_some_mem {κ ν : Type} [BEq κ] [LawfulBEq κ]
    (l : List (κ × ν)) (a : κ) (b : ν) (h : List.lookup a l = some b) : (a, b) ∈ l := by
  induction l with
  | nil => simp [List.lookup] at h
  | cons hd tl ih =>
    obtain ⟨k, v⟩ := hd
    by_cases hk : a = k
    · subst hk
      simp [List.lookup] at h
      simp [h]
    · have hb : (a == k) = false := by simp [hk]
      simp only [List.lookup, hb] at h
      exact List.mem_cons_of_mem _ (ih h)

theorem cites_cols_mem (m : List (Nat × Int)) (k : String) (ov : Option Int)
    (h : (k, ov) ∈ cites_2015_2026 m) :
    ∃ y : Nat, 2015 ≤ y ∧ y ≤ 2026 ∧ k = "cites_" ++ toString y ∧ ov = List.lookup y m := by
  rw [cites_2015_2026] at h
  rcases List.mem_map.mp h with ⟨y, hy, heq⟩
  have hb := List.mem_range'_1.mp hy
  simp only [YEAR_MIN, YEAR_MAX] at hb
  injection heq with h1 h2
  exact ⟨y, by omega, by omega, h1.symm, h2.symm⟩

theorem insertOptPairs_nonneg (l : List (Option (Nat × Nat))) :
    ∀ (init : List (Nat × Int)), (∀ p ∈ init, 0 ≤ p.2) →
      ∀ p ∈ l.foldl (fun m o =>
          match o with | some yc => dictInsert m yc.1 (yc.2 : Int) | none => m) init,
        0 ≤ p.2 := by
  induction l with
  | nil =>
    intro init h p hp
    rw [List.foldl_nil] at hp
    exact h p hp
  | cons hd tl ih =>
    intro init hinit p hp
    rw [List.foldl_cons] at hp
    cases hd with
    | none => exact ih init hinit p hp
    | some yc =>
      refine ih (dictInsert init yc.1 (yc.2 : Int)) ?_ p hp
      intro q hq
      rcases mem_dictInsert _ _ _ q hq with h | h
      · exact hinit q h
      · rw [h]
        exact Int.ofNat_nonneg _

theorem parse_view_citation_series_nonneg (pg : ViewPage) :
    ∀ p ∈ (parse_view_citation pg).cites_by_year, 0 ≤ p.2 := by
  intro p hp
  simp only [parse_view_citation] at hp
  rcases hA : pg.patternA with _ | pairs
  · rcases hB : pg.patternB with _ | yc
    · rw [hA, hB] at hp
      simp at hp
    · rw [hA, hB] at hp
      exact insertPairs_nonneg _ [] (by simp) p hp
  · rw [hA] at hp
    exact insertPairs_nonneg _ [] (by simp) p hp

theorem playwright_series_nonneg (rp : RenderedPage) (s : List (Nat × Int))
    (h : extract_cites_by_year_playwright rp = .ok s) : ∀ p ∈ s, 0 ≤ p.2 := by
  intro p hp
  simp only [extract_cites_by_year_playwright] at h
  by_cases hbl : playwrightBlocked rp.content = true
  · rw [if_pos hbl] at h
    cases h
  · rw [if_neg hbl] at h
    set aria := rp.ariaMatches.foldl (fun m o =>
      match o with | some yc => dictInsert m yc.1 (yc.2 : Int) | none => m)
      ([] : List (Nat × Int)) with haria
    by_cases hempty : aria = []
    · rw [if_pos hempty] at h
      injection h with h
      subst h
      exact insertPairs_nonneg _ [] (by simp) p hp
    · rw [if_neg hempty] at h
      injection h with h
      subst h
      exact insertOptPairs_nonneg _ [] (by simp) p (haria ▸ hp)

theorem process_step_eq (viewNet : Option String → Except String ViewPage)
    (renderNet : Option String → RenderedPage) (d f u : String) (i : Nat) (p : Pub)
    (cache : Cache ViewPage) (html : ViewPage) (c1 : Cache ViewPage) (k : Nat)
    (s : List (Nat × Int))
    (hcg : cache_get (viewNet p.view_citation_url) (viewPath i) false cache
      = (.ok html, c1, k))
    (hrender : extract_cites_by_year_playwright (renderNet p.view_citation_url) = .ok s)
    (hcap : looks_like_captcha html.raw = false) :
    process_one_professor_step viewNet renderNet d f u i p cache
      = (.ok (assembledRow d f u p html s, c1), 1) := by
  simp only [process_one_professor_step, hcg, hrender, hcap, Bool.false_eq_true, if_false]
  rfl

theorem process_step_ok_inv (viewNet : Option String → Except String ViewPage)
    (renderNet : Option String → RenderedPage) (d f u : String) (i : Nat) (p : Pub)
    (cache : Cache ViewPage) (row : Row) (cache2 : Cache ViewPage)
    (h : (process_one_professor_step viewNet renderNet d f u i p cache).1
      = .ok (row, cache2)) :
    ∃ (html : ViewPage) (k : Nat) (s : List (Nat × Int)),
      cache_get (viewNet p.view_citation_url) (viewPath i) false cache
          = (.ok html, cache2, k) ∧
      extract_cites_by_year_playwright (renderNet p.view_citation_url) = .ok s ∧
      looks_like_captcha html.raw = false ∧
      row = assembledRow d f u p html s := by
  rcases hcg : cache_get (viewNet p.view_citation_url) (viewPath i) false cache
    with ⟨r1, c1, n1⟩
  cases r1 with
  | error e =>
    simp only [process_one_professor_step, hcg] at h
    cases h
  | ok html =>
    cases hr : extract_cites_by_year_playwright (renderNet p.view_citation_url) with
    | error e =>
      simp only [process_one_professor_step, hcg, hr] at h
      cases h
    | ok s =>
      cases hcap : looks_like_captcha html.raw with
      | true =>
        simp only [process_one_professor_step, hcg, hr, hcap, if_true] at h
        cases h
      | false =>
        rw [process_step_eq viewNet renderNet d f u i p cache html c1 n1 s hcg hr hcap] at h
        simp only [Except.ok.injEq, Prod.mk.injEq] at h
        refine ⟨html, n1, s, ?_, rfl, hcap, h.1.symm⟩
        rw [h.2]

/-! ## Claim theorems -/

/-- Claim C5. Every citation series attached to an output record maps only
calendar years within the fixed horizon 2015–2026 (inclusive) to non-negative
counts: each per-year column of a row produced by the per-publication step is
`cites_<y>` for a horizon year `y`, holds that year's value of the extracted
series, and every present count is non-negative; years outside the horizon are
not represented. -/
theorem citation_series_horizon :
    ∀ (viewNet : Option String → Except String ViewPage)
      (renderNet : Option String → RenderedPage)
      (d f u : String) (i : Nat) (p : Pub) (cache : Cache ViewPage)
      (row : Row) (cache2 : Cache ViewPage),
      (process_one_professor_step viewNet renderNet d f u i p cache).1
          = .ok (row, cache2) →
      ∀ (k : String) (ov : Option Int), (k, ov) ∈ row.cites →
        (∃ y : Nat, 2015 ≤ y ∧ y ≤ 2026 ∧ k = "cites_" ++ toString y) ∧
        (∀ c : Int, ov = some c → 0 ≤ c) := by
  intro viewNet renderNet d f u i p cache row cache2 hstep k ov hmem
  rcases process_step_ok_inv viewNet renderNet d f u i p cache row cache2 hstep
    with ⟨html, n1, sp, hcg, hrender, hcap, hrow⟩
  subst hrow
  simp only [assembledRow] at hmem
  rcases cites_cols_mem _ _ _ hmem with ⟨y, hy1, hy2, hkey, hov⟩
  refine ⟨⟨y, hy1, hy2, hkey⟩, ?_⟩
  rintro c rfl
  have hc : (y, c) ∈ (if sp ≠ [] then sp else (parse_view_citation html).cites_by_year) :=
    lookup_some_mem _ _ _ hov.symm
  by_cases hne : sp = []
  · rw [if_neg (by simp [hne])] at hc
    exact parse_view_citation_series_nonneg html (y, c) hc
  · rw [if_pos hne] at hc
    exact playwright_series_nonneg _ _ hrender (y, c) hc

/-- Witness for C5 at a concrete publication step. -/
theorem citation_series_horizon_witness :
    (process_one_professor_step c5ViewNet c5RenderNet "CS" "F" "u" 0 c5Stub []).1
        = .ok (c5Row, c5Cache) ∧
    ("cites_2019", (some 3 : Option Int)) ∈ c5Row.cites ∧
    ((∃ y : Nat, 2015 ≤ y ∧ y ≤ 2026 ∧ "cites_2019" = "cites_" ++ toString y) ∧
      (∀ c : Int, (some 3 : Option Int) = some c → 0 ≤ c)) :=
  ⟨rfl, by decide,
    citation_series_horizon c5ViewNet c5RenderNet "CS" "F" "u" 0 c5Stub [] c5Row c5Cache
      rfl "cites_2019" (some 3) (by decide)⟩

theorem pubsLoop_pages_le (net : Nat → Except String AuthorPage) (ps : Nat)
    (mp : Option Nat) :
    ∀ (n : Nat), ∀ (page cstart : Nat) (acc : List Pub) (cache : Cache AuthorPage)
      (pages : Nat), 500 - page ≤ n →
      (pubsLoop net ps mp cstart page acc cache pages).2.2 ≤ pages + n + 1 := by
  intro n
  induction n with
  | zero =>
    intro page cstart acc cache pages hn
    rw [pubsLoop.eq_def]
    rcases hcg : cache_get (net cstart) (listingPath cstart) false cache with ⟨r, c1, k⟩
    cases r with
    | error e => simp
    | ok html =>
      simp only []
      split
      · simp
      · split
        · simp
        · split
          · simp
          · split
            · simp
            · split
              · simp
              · omega
  | succ n ih =>
    intro page cstart acc cache pages hn
    rw [pubsLoop.eq_def]
    rcases hcg : cache_get (net cstart) (listingPath cstart) false cache with ⟨r, c1, k⟩
    cases r with
    | error e => simp
    | ok html =>
      simp only []
      split
      · simp
      · split
        · simp
        · split
          · simp
          · split
            · simp
            · split
              · simp
              · have := ih (page + 1) (cstart + ps)
                  (acc ++ parse_author_page_for_pubs html.rows) c1 (pages + 1) (by omega)
                omega

theorem pubsLoop_pages_adv (net : Nat → Except String AuthorPage) (ps : Nat)
    (hadv : advNet net) :
    ∀ (n : Nat), ∀ (page : Nat), page + n = 500 →
    ∀ (cstart : Nat) (acc : List Pub) (cache : Cache AuthorPage) (pages : Nat),
      (∀ q pg, List.lookup q cache = some pg → goodPage pg) →
      (pubsLoop net ps none cstart page acc cache pages).2.2 = pages + n + 1 := by
  intro n
  induction n with
  | zero =>
    intro page hpage cstart acc cache pages hinv
    have hp : page = 500 := by omega
    subst hp
    rw [pubsLoop.eq_def]
    rcases hl : List.lookup (listingPath cstart) cache with _ | pg
    · rcases hadv cstart with ⟨pg, hnet, hgood⟩
      rw [hnet, cache_get_miss_ok _ _ _ hl]
      simp only [hgood.1, Bool.false_eq_true, if_false]
      rw [if_neg hgood.2.1]
      simp only [Option.isNone_iff_eq_none]
      rw [if_neg hgood.2.2, dif_pos (by omega)]
    · have hgood := hinv _ _ hl
      rw [cache_get_hit _ _ _ pg hl]
      simp only [hgood.1, Bool.false_eq_true, if_false]
      rw [if_neg hgood.2.1]
      simp only [Option.isNone_iff_eq_none]
      rw [if_neg hgood.2.2, dif_pos (by omega)]
  | succ n ih =>
    intro page hpage cstart acc cache pages hinv
    rw [pubsLoop.eq_def]
    rcases hl : List.lookup (listingPath cstart) cache with _ | pg
    · rcases hadv cstart with ⟨pg, hnet, hgood⟩
      rw [hnet, cache_get_miss_ok _ _ _ hl]
      simp only [hgood.1, Bool.false_eq_true, if_false]
      rw [if_neg hgood.2.1]
      simp only [Option.isNone_iff_eq_none]
      rw [if_neg hgood.2.2, dif_neg (by omega)]
      have hinv2 : ∀ q pg2, List.lookup q (dictInsert cache (listingPath cstart) pg)
          = some pg2 → goodPage pg2 := by
        intro q pg2 hq
        rw [lookup_dictInsert] at hq
        split at hq
        · injection hq with h
          exact h ▸ hgood
        · exact hinv _ _ hq
      rw [ih (page + 1) (by omega) (cstart + ps)
        (acc ++ parse_author_page_for_pubs pg.rows) _ (pages + 1) hinv2]
      omega
    · have hgood := hinv _ _ hl
      rw [cache_get_hit _ _ _ pg hl]
      simp only [hgood.1, Bool.false_eq_true, if_false]
      rw [if_neg hgood.2.1]
      simp only [Option.isNone_iff_eq_none]
      rw [if_neg hgood.2.2, dif_neg (by omega)]
      rw [ih (page + 1) (by omega) (cstart + ps)
        (acc ++ parse_author_page_for_pubs pg.rows) _ (pages + 1) hinv]
      omega

/-- Claim C8. The pagination loop always terminates with a bounded number of
page requests: for any listing input at most 501 pages are requested, and an
adversarial listing that always fetches a page with at least one stub row and
an enabled next-page affordance is cut off at exactly 501 pages (the fixed
`page > 500` safety bound) instead of looping forever. -/
theorem pagination_safety_bound :
    (∀ (net : Nat → Except String AuthorPage) (ps : Nat) (mp : Option Nat)
        (cache : Cache AuthorPage),
        (get_all_author_pubs net ps mp cache).2.2 ≤ 501) ∧
    (∀ (net : Nat → Except String AuthorPage) (ps : Nat),
        advNet net → (get_all_author_pubs net ps none []).2.2 = 501) := by
  constructor
  · intro net ps mp cache
    have h := pubsLoop_pages_le net ps mp 500 0 0 [] cache 0 (by omega)
    rw [get_all_author_pubs]
    omega
  · intro net ps hadv
    have h := pubsLoop_pages_adv net ps hadv 500 0 (by omega) 0 [] [] 0 (by simp)
    rw [get_all_author_pubs]
    omega

/-- Witness for C8 at a concrete adversarial listing. -/
theorem pagination_safety_bound_witness :
    advNet advListing ∧ (get_all_author_pubs advListing 100 none []).2.2 = 501 :=
  ⟨fun _ => ⟨advPage, rfl, by decide, by decide, by decide⟩,
    pagination_safety_bound.2 advListing 100
      (fun _ => ⟨advPage, rfl, by decide, by decide, by decide⟩)⟩

/-- Claim C1, counterexample.  The claim that a blocked body "is neither
written to the cache store nor used for any extraction" is false on the cache
half: fetching a body with an anti-automation marker aborts the run with the
blocked error, but the poisoned body has already been persisted in the cache
store by `cache_get` (which writes unconditionally before the classifier
runs in the caller). -/
theorem blocked_body_cached_counterexample :
    looks_like_captcha blockedListing.raw = true ∧
    (get_all_author_pubs (fun _ => .ok blockedListing) 100 none []).1
        = .error .blocked ∧
    List.lookup "cstart_0"
        (get_all_author_pubs (fun _ => .ok blockedListing) 100 none []).2.1
      = some blockedListing := by
  refine ⟨by decide, ?_, ?_⟩
  · rw [get_all_author_pubs, pubsLoop.eq_def]
    rfl
  · rw [get_all_author_pubs, pubsLoop.eq_def]
    rfl

/-- Claim C1, amended.  Whenever a fetched body carries an anti-automation
marker, the run aborts with the blocked error before that body is parsed for
stubs or detail fields (in the per-publication path the rendered-DOM load of
the same URL happens first and is itself block-checked); however, the body has
already been written to the cache store: `cache_get` persists every fetched
body before the caller's classifier runs. -/
theorem blocked_abort_amended :
    (∀ (net : Nat → Except String AuthorPage) (ps : Nat) (mp : Option Nat)
        (cstart page : Nat) (acc : List Pub) (cache : Cache AuthorPage) (pages : Nat)
        (body : AuthorPage) (cache2 : Cache AuthorPage) (k : Nat),
        cache_get (net cstart) (listingPath cstart) false cache = (.ok body, cache2, k) →
        looks_like_captcha body.raw = true →
        pubsLoop net ps mp cstart page acc cache pages
          = (.error .blocked, cache2, pages + 1)) ∧
    (∀ (viewNet : Option String → Except String ViewPage)
        (renderNet : Option String → RenderedPage) (d f u : String) (i : Nat) (p : Pub)
        (cache : Cache ViewPage) (html : ViewPage) (cache2 : Cache ViewPage) (k : Nat)
        (s : List (Nat × Int)),
        cache_get (viewNet p.view_citation_url) (viewPath i) false cache
            = (.ok html, cache2, k) →
        extract_cites_by_year_playwright (renderNet p.view_citation_url) = .ok s →
        looks_like_captcha html.raw = true →
        process_one_professor_step viewNet renderNet d f u i p cache
          = (.error .blocked, 1)) ∧
    (∀ (α : Type) (v : α) (path : String) (cache : Cache α),
        List.lookup path cache = none →
        List.lookup path (cache_get (.ok v : Except String α) path false cache).2.1
          = some v) := by
  refine ⟨?_, ?_, ?_⟩
  · intro net ps mp cstart page acc cache pages body cache2 k hcg hcap
    rw [pubsLoop.eq_def, hcg]
    simp only []
    rw [if_pos hcap]
  · intro viewNet renderNet d f u i p cache html cache2 k s hcg hrender hcap
    simp only [process_one_professor_step, hcg, hrender]
    rw [if_pos hcap]
  · intro α v path cache h
    rw [cache_get_miss_ok _ _ _ h]
    exact lookup_dictInsert_self cache path v

/-- Witness for C1 (amended) at concrete blocked bodies. -/
theorem blocked_abort_amended_witness :
    pubsLoop (fun _ => .ok blockedListing) 100 none 0 0 [] [] 0
        = (.error .blocked, [("cstart_0", blockedListing)], 1) ∧
    process_one_professor_step (fun _ => .ok blockedView) c1RenderNet "CS" "F" "u" 0
        c1Stub [] = (.error .blocked, 1) ∧
    List.lookup "k"
        (cache_get (.ok blockedListing : Except String AuthorPage) "k" false []).2.1
      = some blockedListing :=
  ⟨blocked_abort_amended.1 (fun _ => .ok blockedListing) 100 none 0 0 [] [] 0
      blockedListing [("cstart_0", blockedListing)] 1 rfl (by decide),
    blocked_abort_amended.2.1 (fun _ => .ok blockedView) c1RenderNet "CS" "F" "u" 0
      c1Stub [] blockedView [("pub_0", blockedView)] 1 [] rfl rfl (by decide),
    blocked_abort_amended.2.2 AuthorPage blockedListing "k" [] rfl⟩

/-- Claim C6. `citations_per_year_proxy(total, year, horizon_end)` is absent iff
`total` or `year` is absent; otherwise it equals
`total / max(horizon_end - year + 1, 1)`; in particular
`proxy(100, 2020, 2026) = 100/7`, `proxy(None, 2020, _)` is absent, and
`proxy(10, 2027, 2026) = 10.0` — the denominator is never zero or negative. -/
theorem metric_proxy_spec :
    (∀ (t y : Option Int) (now : Int),
        (citations_per_year_proxy t y now).isNone = (t.isNone || y.isNone)) ∧
    (∀ tv yv now : Int,
        citations_per_year_proxy (some tv) (some yv) now
          = some ((tv : ℚ) / ((max (now - yv + 1) 1 : Int) : ℚ))) ∧
    citations_per_year_proxy (some 100) (some 2020) 2026 = some (100 / 7) ∧
    (∀ now : Int, citations_per_year_proxy none (some 2020) now = none) ∧
    citations_per_year_proxy (some 10) (some 2027) 2026 = some 10 := by
  refine ⟨?_, ?_, ?_, ?_, ?_⟩
  · intro t y now
    cases t <;> cases y <;> simp [citations_per_year_proxy]
  · intro tv yv now
    have hd : (if now - yv + 1 ≤ 0 then (1 : Int) else now - yv + 1)
        = max (now - yv + 1) 1 := by
      rcases le_or_lt (now - yv + 1) 0 with h | h
      · rw [if_pos h, max_eq_right (by omega)]
      · rw [if_neg (by omega), max_eq_left (by omega)]
    simp [citations_per_year_proxy, hd]
  · norm_num [citations_per_year_proxy]
  · intro now
    simp [citations_per_year_proxy]
  · norm_num [citations_per_year_proxy]

/-- Claim C10. A present total citation count of 0 yields the defined proxy value
0, never an absent one: the proxy is absent exactly when an input is absent. -/
theorem proxy_zero_total_defined :
    (∀ (yv now : Int), citations_per_year_proxy (some 0) (some yv) now = some 0) ∧
    (∀ (t y : Option Int) (now : Int),
        (citations_per_year_proxy t y now).isNone = (t.isNone || y.isNone)) := by
  constructor
  · intro yv now
    simp [citations_per_year_proxy]
  · intro t y now
    cases t <;> cases y <;> simp [citations_per_year_proxy]

/-- Claim C7. For a key not yet cached, calling the fetch path twice without
`force` performs the network fetch exactly once; the second call returns the
body stored by the first.  If the fetch fails, the failure propagates and the
store is unchanged (nothing is cached for that key). -/
theorem cache_idempotence :
    ∀ (fetch : Except String String) (path : String) (s : Cache String),
      List.lookup path s = none →
      (∀ body, fetch = .ok body →
        (cache_get fetch path false s).2.2
            + (cache_get fetch path false (cache_get fetch path false s).2.1).2.2 = 1 ∧
          List.lookup path (cache_get fetch path false s).2.1 = some body ∧
          cache_get fetch path false (cache_get fetch path false s).2.1
            = (.ok body, (cache_get fetch path false s).2.1, 0)) ∧
      (∀ e, fetch = .error e → cache_get fetch path false s = (.error e, s, 1)) := by
  intro fetch path s hnone
  constructor
  · rintro body rfl
    rw [cache_get_miss_ok _ _ _ hnone]
    refine ⟨?_, ?_, ?_⟩
    · rw [cache_get_hit _ _ _ body (lookup_dictInsert_self s path body)]
      rfl
    · exact lookup_dictInsert_self s path body
    · rw [cache_get_hit _ _ _ body (lookup_dictInsert_self s path body)]
  · rintro e rfl
    exact cache_get_miss_error _ _ _ hnone

/-- Witness for C7 at a concrete key, store and fetch result. -/
theorem cache_idempotence_witness :
    List.lookup "k" ([] : Cache String) = none ∧
    ((cache_get fetchOkBody "k" false ([] : Cache String)).2.2
        + (cache_get fetchOkBody "k" false
            (cache_get fetchOkBody "k" false ([] : Cache String)).2.1).2.2 = 1 ∧
      List.lookup "k" (cache_get fetchOkBody "k" false ([] : Cache String)).2.1
        = some "body" ∧
      cache_get fetchOkBody "k" false
          (cache_get fetchOkBody "k" false ([] : Cache String)).2.1
        = (.ok "body", (cache_get fetchOkBody "k" false ([] : Cache String)).2.1, 0)) ∧
    cache_get fetchBoom "k" false ([] : Cache String) = (.error "boom", [], 1) :=
  ⟨rfl, (cache_idempotence fetchOkBody "k" [] rfl).1 "body" rfl,
    (cache_idempotence fetchBoom "k" [] rfl).2 "boom" rfl⟩


/-- Claim C2, counterexample.  The claim that the rendered-DOM extractor is
invoked only when the static parse yields an empty series, and that a
non-empty static series is the one stored, is false: here the static parse
yields `{2020: 5}`, yet the rendered extractor is still invoked and its series
`{2019: 3}` is the one stored in the merged record. -/
theorem rendered_series_counterexample :
    (parse_view_citation c2View).cites_by_year = [(2020, 5)] ∧
    c2Step.2 = 1 ∧
    c2Step.1.map (fun rc => List.lookup "cites_2020" rc.1.cites) = .ok (some none) ∧
    c2Step.1.map (fun rc => List.lookup "cites_2019" rc.1.cites)
      = .ok (some (some 3)) := by
  refine ⟨by decide, rfl, ?_, ?_⟩ <;> rfl

/-- Claim C2, amended.  Whenever the detail fetch succeeds, the rendered-DOM
extractor is invoked exactly once for the publication, unconditionally; the
series stored in the merged record is the rendered one whenever it is
non-empty, and the static-parse series only when the rendered extraction
returned an empty mapping. -/
theorem rendered_series_amended :
    ∀ (viewNet : Option String → Except String ViewPage)
      (renderNet : Option String → RenderedPage) (d f u : String) (i : Nat) (p : Pub)
      (cache : Cache ViewPage) (html : ViewPage) (cache2 : Cache ViewPage) (k : Nat),
      cache_get (viewNet p.view_citation_url) (viewPath i) false cache
          = (.ok html, cache2, k) →
      ((process_one_professor_step viewNet renderNet d f u i p cache).2 = 1 ∧
        ∀ s, extract_cites_by_year_playwright (renderNet p.view_citation_url) = .ok s →
          looks_like_captcha html.raw = false →
          (process_one_professor_step viewNet renderNet d f u i p cache).1.map
              (fun rc => rc.1.cites)
            = .ok (cites_2015_2026
                (if s ≠ [] then s else (parse_view_citation html).cites_by_year))) := by
  intro viewNet renderNet d f u i p cache html cache2 k hcg
  constructor
  · cases hr : extract_cites_by_year_playwright (renderNet p.view_citation_url) with
    | error e => simp [process_one_professor_step, hcg, hr]
    | ok s =>
      simp only [process_one_professor_step, hcg, hr]
      split <;> rfl
  · intro s hr hcap
    rw [process_step_eq viewNet renderNet d f u i p cache html cache2 k s hcg hr hcap]
    simp [assembledRow, Except.map]

/-- Witness for C2 (amended) at the concrete C2 run. -/
theorem rendered_series_amended_witness :
    c2Step.2 = 1 ∧
    c2Step.1.map (fun rc => rc.1.cites)
      = .ok (cites_2015_2026
          (if [(2019, 3)] ≠ ([] : List (Nat × Int)) then [(2019, 3)]
           else (parse_view_citation c2View).cites_by_year)) :=
  have h := rendered_series_amended c2ViewNet c2RenderNet "CS" "F" "u" 0 c2Stub []
    c2View [("pub_0", c2View)] 1 rfl
  ⟨h.1, h.2 [(2019, 3)] rfl (by decide)⟩

/-- Claim C9. Merge precedence when combining a stub with the parsed detail
record: the merged year is the detail year if present else the stub year, the
merged total citation count is the detail total if present else the stub
at-a-glance count, and the merged title is the detail title if present else
the stub title.  "Present" follows the source's truthiness test for year and
title (a non-null, non-zero year; a non-null, non-empty title), and is exactly
non-null for the citation total. -/
theorem merge_precedence :
    ∀ (viewNet : Option String → Except String ViewPage)
      (renderNet : Option String → RenderedPage) (d f u : String) (i : Nat) (p : Pub)
      (cache : Cache ViewPage) (html : ViewPage) (cache2 : Cache ViewPage) (k : Nat)
      (s : List (Nat × Int)),
      cache_get (viewNet p.view_citation_url) (viewPath i) false cache
          = (.ok html, cache2, k) →
      extract_cites_by_year_playwright (renderNet p.view_citation_url) = .ok s →
      looks_like_captcha html.raw = false →
      (((parse_view_citation html).pub_year = none →
          (process_one_professor_step viewNet renderNet d f u i p cache).1.map
            (fun rc => rc.1.publication_year) = .ok p.year) ∧
        (∀ yv : Int, (parse_view_citation html).pub_year = some yv → yv ≠ 0 →
          (process_one_professor_step viewNet renderNet d f u i p cache).1.map
            (fun rc => rc.1.publication_year) = .ok (some yv)) ∧
        ((parse_view_citation html).cited_by_total = none →
          (process_one_professor_step viewNet renderNet d f u i p cache).1.map
            (fun rc => rc.1.cited_by_total)
            = .ok (p.cited_by_from_list.map (fun n => (n : Int)))) ∧
        (∀ cv : Int, (parse_view_citation html).cited_by_total = some cv →
          (process_one_professor_step viewNet renderNet d f u i p cache).1.map
            (fun rc => rc.1.cited_by_total) = .ok (some cv)) ∧
        ((parse_view_citation html).title = none →
          (process_one_professor_step viewNet renderNet d f u i p cache).1.map
            (fun rc => rc.1.title) = .ok p.title) ∧
        (∀ t : String, (parse_view_citation html).title = some t → t ≠ "" →
          (process_one_professor_step viewNet renderNet d f u i p cache).1.map
            (fun rc => rc.1.title) = .ok t)) := by
  intro viewNet renderNet d f u i p cache html cache2 k s hcg hrender hcap
  simp only [process_step_eq viewNet renderNet d f u i p cache html cache2 k s hcg
    hrender hcap, Except.map, assembledRow]
  refine ⟨?_, ?_, ?_, ?_, ?_, ?_⟩
  · intro h
    simp [pyOrInt, h]
  · intro yv h hyv
    simp [pyOrInt, h, hyv]
  · intro h
    simp [h]
  · intro cv h
    simp [h]
  · intro h
    simp [pyOrStr, h]
  · intro t h ht
    simp [pyOrStr, h, ht]

/-- Witness for C9: stub year 2019 with an absent detail year merges to 2019
(with the stub count and the detail title), and stub year 2019 with detail
year 2020 merges to 2020 (with the detail total). -/
theorem merge_precedence_witness :
    ((process_one_professor_step c9NetA c9Render "CS" "F" "u" 0 c9Stub []).1.map
        (fun rc => rc.1.publication_year) = .ok (some 2019) ∧
      (process_one_professor_step c9NetA c9Render "CS" "F" "u" 0 c9Stub []).1.map
        (fun rc => rc.1.cited_by_total) = .ok (some 4) ∧
      (process_one_professor_step c9NetA c9Render "CS" "F" "u" 0 c9Stub []).1.map
        (fun rc => rc.1.title) = .ok "DT") ∧
    ((process_one_professor_step c9NetB c9Render "CS" "F" "u" 0 c9Stub []).1.map
        (fun rc => rc.1.publication_year) = .ok (some 2020) ∧
      (process_one_professor_step c9NetB c9Render "CS" "F" "u" 0 c9Stub []).1.map
        (fun rc => rc.1.cited_by_total) = .ok (some 10)) := by
  have hA := merge_precedence c9NetA c9Render "CS" "F" "u" 0 c9Stub [] c9ViewA
    [("pub_0", c9ViewA)] 1 [] rfl rfl (by decide)
  have hB := merge_precedence c9NetB c9Render "CS" "F" "u" 0 c9Stub [] c9ViewB
    [("pub_0", c9ViewB)] 1 [] rfl rfl (by decide)
  exact ⟨⟨hA.1 rfl, hA.2.2.1 rfl, hA.2.2.2.2.2 "DT" rfl (by decide)⟩,
    ⟨hB.2.1 2020 rfl (by decide), hB.2.2.2.1 10 rfl⟩⟩

/-- Claim C3, counterexample.  The claim that all four per-record fields are
written as the literal "N/A" when absent is false for the title: a record with
an absent title is written with an empty title after "TITLE: ", not with the
"N/A" placeholder (the other three fields do get the placeholder). -/
theorem yearly_na_title_counterexample :
    YearlyDocs.write_record_lines none (some "desc") none none
      = ["TITLE: ", "CITED_BY_TOTAL: N/A", "CITATIONS_PER_YEAR_PROXY: N/A",
         "ABSTRACT_OR_DESCRIPTION:", "desc"] ∧
    ("TITLE: " : String) ≠ "TITLE: N/A" := by
  refine ⟨by decide, by decide⟩

/-- Claim C3, amended.  In the yearly export, the total-citations, proxy and
description fields are written as the literal "N/A" when absent, but the title
field is written as its cleaned value with no placeholder: an absent title
yields the bare line "TITLE: ". -/
theorem yearly_na_amended :
    ∀ (t a c p : Option String),
      (t = none → (YearlyDocs.write_record_lines t a c p).get? 0 = some "TITLE: ") ∧
      (c = none → (YearlyDocs.write_record_lines t a c p).get? 1
          = some "CITED_BY_TOTAL: N/A") ∧
      (p = none → (YearlyDocs.write_record_lines t a c p).get? 2
          = some "CITATIONS_PER_YEAR_PROXY: N/A") ∧
      (a = none → (YearlyDocs.write_record_lines t a c p).get? 4 = some "N/A") := by
  intro t a c p
  refine ⟨?_, ?_, ?_, ?_⟩ <;> rintro rfl <;>
    simp [YearlyDocs.write_record_lines, YearlyDocs.clean_text]

/-- Witness for C3 (amended) at an all-absent record. -/
theorem yearly_na_amended_witness :
    (YearlyDocs.write_record_lines none none none none).get? 0 = some "TITLE: " ∧
    (YearlyDocs.write_record_lines none none none none).get? 1
        = some "CITED_BY_TOTAL: N/A" ∧
    (YearlyDocs.write_record_lines none none none none).get? 2
        = some "CITATIONS_PER_YEAR_PROXY: N/A" ∧
    (YearlyDocs.write_record_lines none none none none).get? 4 = some "N/A" :=
  have h := yearly_na_amended none none none none
  ⟨h.1 rfl, h.2.1 rfl, h.2.2.1 rfl, h.2.2.2 rfl⟩

/-- Claim C4, counterexample.  The claim that a listing row without a detail
link href is skipped is false: a row with a title anchor but no href attribute
is still emitted, as a stub whose detail URL is absent. -/
theorem stub_row_counterexample :
    parse_author_page_for_pubs [⟨some ("Some Title", none), none, none⟩]
      = [⟨"Some Title", none, none, none⟩] ∧
    (⟨"Some Title", none, none, none⟩ : Pub).view_citation_url = none := by
  exact ⟨by decide, rfl⟩

/-- Claim C4, amended.  A listing row without a title anchor is skipped; a row
with a title anchor is always emitted, and when its href is absent the emitted
stub's detail URL is absent — emitted stubs are not guaranteed to carry a
detail URL. -/
theorem stub_row_amended :
    (∀ (row : PubRow) (rest : List PubRow), row.titleAnchor = none →
        parse_author_page_for_pubs (row :: rest) = parse_author_page_for_pubs rest) ∧
    (∀ (row : PubRow) (rest : List PubRow) (txt : String),
        row.titleAnchor = some (txt, none) →
        ∃ pub : Pub, parse_author_page_for_pubs (row :: rest)
            = pub :: parse_author_page_for_pubs rest ∧
          pub.title = txt ∧ pub.view_citation_url = none) := by
  constructor
  · intro row rest h
    simp [parse_author_page_for_pubs, h]
  · intro row rest txt h
    refine ⟨⟨txt, row.yearText.bind pyInt, row.citedText.bind digitsOnly, none⟩, ?_, rfl, rfl⟩
    simp [parse_author_page_for_pubs, h]

/-- Witness for C4 (amended) at concrete rows. -/
theorem stub_row_amended_witness :
    parse_author_page_for_pubs [(⟨none, some "2015", some "3"⟩ : PubRow)] = [] ∧
    ∃ pub : Pub, parse_author_page_for_pubs [(⟨some ("T", none), none, none⟩ : PubRow)]
        = pub :: parse_author_page_for_pubs [] ∧
      pub.title = "T" ∧ pub.view_citation_url = none :=
  ⟨by
      rw [stub_row_amended.1 ⟨none, some "2015", some "3"⟩ [] rfl]
      rfl,
    stub_row_amended.2 ⟨some ("T", none), none, none⟩ [] "T" rfl⟩

end Scholar
